import Mathlib

/-!
Shallow embedding of `src/system.rs` from `bevy_winit_hook`.

The reconciliation system `changed_windows` iterates over changed window
entities independently; we model the loop body for one entity as a pure
function from the window record, its cached snapshot and an oracle for the
native (winit) window's observable state to the updated record, the updated
cache, the ordered list of native calls issued, the resize events sent and
the log messages emitted.  `despawn_windows` is modelled over lists of
entity identifiers.

Fields whose internals live outside this repository (cursor icons, grab
modes, window levels, positions, button masks, resize constraints, video
modes) are abstracted to opaque codes compared by equality, exactly as the
source only ever compares them by equality before handing them to opaque
conversion functions.
-/

namespace BevyWinitHook

/-- `bevy_window::WindowMode`. -/
inductive WindowMode where
  | windowed
  | borderlessFullscreen
  | fullscreen
  | sizedFullscreen
  deriving DecidableEq

/-- `winit::window::Fullscreen`, with the video mode abstracted to a code. -/
inductive Fullscreen where
  | borderless
  | exclusive (videomode : Nat)
  deriving DecidableEq

/-- The cursor sub-record of `bevy_window::Window` (`window.cursor`). -/
structure Cursor where
  icon : Nat
  grabMode : Nat
  visible : Bool
  hitTest : Bool
  deriving DecidableEq

/-- `window.internal`: the pending one-shot maximize / minimize requests
(`take_maximize_request` / `take_minimize_request` read-and-clear them). -/
structure InternalState where
  maximizeRequest : Option Bool
  minimizeRequest : Option Bool
  deriving DecidableEq

/-- The fields of `bevy_window::Window` read or written by `system.rs`.
`resolution` is the physical size; `physicalCursorPosition` models the
method `window.physical_cursor_position()`. -/
structure Window where
  title : String
  mode : WindowMode
  resolution : Nat × Nat
  physicalCursorPosition : Option (Nat × Nat)
  cursor : Cursor
  decorations : Bool
  resizable : Bool
  enabledButtons : Nat
  resizeConstraints : Nat
  position : Nat
  internal : InternalState
  focused : Bool
  windowLevel : Nat
  transparent : Bool
  imeEnabled : Bool
  imePosition : Nat
  windowTheme : Option Bool
  visible : Bool
  deriving DecidableEq

/-- One native (winit) call issued by the reconciliation pass, in the shape
the source issues it. -/
inductive NativeCall where
  | setTitle (title : String)
  | setFullscreen (mode : Option Fullscreen)
  | requestInnerSize (width height : Nat)
  | setCursorPosition (x y : Nat)
  | setCursorIcon (icon : Nat)
  | attemptGrab (grabMode : Nat)
  | setCursorVisible (visible : Bool)
  | setCursorHitTest (hitTest : Bool)
  | setDecorations (decorations : Bool)
  | setResizable (resizable : Bool)
  | setEnabledButtons (buttons : Nat)
  | setMinInnerSize (width height : Nat)
  | setMaxInnerSize (width height : Nat)
  | setOuterPosition (x y : Int)
  | setMaximized (maximized : Bool)
  | setMinimized (minimized : Bool)
  | focusWindow
  | setWindowLevel (level : Nat)
  | setImeAllowed (enabled : Bool)
  | setImeCursorArea (position : Nat)
  | setTheme (theme : Option Bool)
  | setVisible (visible : Bool)
  deriving DecidableEq

/-- The warning / error log lines the pass can emit. -/
inductive LogMsg where
  | warnNoMonitor
  | errCursorPosition
  | warnCursorHitTest
  | warnTransparency
  deriving DecidableEq

/-- Result of `WindowResizeConstraints::check_constraints()` (external
crate), as consumed by the source: min size plus max size with per-axis
finiteness. -/
structure CheckedConstraints where
  minW : Nat
  minH : Nat
  maxW : Nat
  maxH : Nat
  maxWFinite : Bool
  maxHFinite : Bool

/-- Oracle for the native side: the winit window's observable state and the
outcome of each fallible native interaction, plus the pure helpers of the
crate that live outside `src/` (`get_best_videomode`, `get_fitting_videomode`,
`winit_window_position`, `check_constraints`), abstracted as functions. -/
structure NativeEnv where
  /-- Whether `winit_windows.get_window(entity)` finds a live native window. -/
  hasWindow : Bool
  /-- `winit_window.fullscreen()`. -/
  fullscreen : Option Fullscreen
  /-- `winit_window.current_monitor()`, monitors abstracted to codes. -/
  currentMonitor : Option Nat
  /-- `get_best_videomode` (crate root, outside `src/`), abstracted. -/
  bestVideomode : Nat → Nat
  /-- `get_fitting_videomode` (crate root, outside `src/`), abstracted. -/
  fittingVideomode : Nat → Nat → Nat → Nat
  /-- `winit_window.request_inner_size`: `some sizeNow` when the native layer
  immediately reports an applied size, `none` otherwise. -/
  requestInnerSize : Nat × Nat → Option (Nat × Nat)
  /-- Whether `winit_window.set_cursor_position` succeeds. -/
  cursorPositionOk : Bool
  /-- Whether `winit_window.set_cursor_hittest` succeeds. -/
  cursorHitTestOk : Bool
  /-- `winit_window.is_decorated()`. -/
  isDecorated : Bool
  /-- `winit_window.is_resizable()`. -/
  isResizable : Bool
  /-- `WindowResizeConstraints::check_constraints` (external crate), abstracted. -/
  checkConstraints : Nat → CheckedConstraints
  /-- `winit_window_position` (crate root, outside `src/`): resolves a
  position request and the current resolution against monitor topology. -/
  windowPosition : Nat → Nat × Nat → Option (Int × Int)
  /-- `winit_window.outer_position()`: `some p` for `Ok(p)`, `none` for `Err`. -/
  outerPosition : Option (Int × Int)

/-- A `WindowResized` event, carrying the reported applied physical size. -/
structure ResizedEvent where
  window : Nat
  size : Nat × Nat
  deriving DecidableEq

/-- Everything one iteration of the `changed_windows` loop produces. -/
structure PassResult where
  window : Window
  cache : Window
  calls : List NativeCall
  resized : List ResizedEvent
  logs : List LogMsg
  deriving DecidableEq

/-- Lines 157-159: title diff. -/
def titleCalls (w c : Window) : List NativeCall :=
  if w.title ≠ c.title then [.setTitle w.title] else []

/-- Lines 162-185: compute `new_mode` (`Option<Option<Fullscreen>>`), warning
when an exclusive fullscreen request finds no current monitor. -/
def resolveNewMode (env : NativeEnv) (w : Window) : Option (Option Fullscreen) × List LogMsg :=
  match w.mode with
  | .borderlessFullscreen => (some (some .borderless), [])
  | .fullscreen =>
    match env.currentMonitor with
    | some m => (some (some (.exclusive (env.bestVideomode m))), [])
    | none => (none, [.warnNoMonitor])
  | .sizedFullscreen =>
    match env.currentMonitor with
    | some m =>
      (some (some (.exclusive (env.fittingVideomode m w.resolution.1 w.resolution.2))), [])
    | none => (none, [.warnNoMonitor])
  | .windowed => (some none, [])

/-- Lines 161-192: mode diff; `set_fullscreen` only when the resolved mode
exists and differs from the native window's reported fullscreen state. -/
def modeStep (env : NativeEnv) (w c : Window) : List NativeCall × List LogMsg :=
  if w.mode ≠ c.mode then
    let r := resolveNewMode env w
    ((match r.1 with
      | some newMode => if env.fullscreen ≠ newMode then [.setFullscreen newMode] else []
      | none => []),
      r.2)
  else ([], [])

/-- Modelled from the spec: `react_to_resize` (crate root, not under `src/`)
writes the reported applied size back into the record's resolution and emits
one resize notification carrying that size. -/
def reactToResize (entity : Nat) (w : Window) (sizeNow : Nat × Nat) :
    Window × ResizedEvent :=
  ({ w with resolution := sizeNow }, ⟨entity, sizeNow⟩)

/-- Lines 194-202: resolution diff; the request is issued whenever the field
differs, and feedback (`Some(size_now)`) triggers `react_to_resize`. -/
def resolutionStep (env : NativeEnv) (entity : Nat) (w c : Window) :
    Window × List NativeCall × List ResizedEvent :=
  if w.resolution ≠ c.resolution then
    match env.requestInnerSize w.resolution with
    | some sizeNow =>
      let r := reactToResize entity w sizeNow
      (r.1, [.requestInnerSize w.resolution.1 w.resolution.2], [r.2])
    | none => (w, [.requestInnerSize w.resolution.1 w.resolution.2], [])
  else (w, [], [])

/-- Lines 204-212: cursor position diff; no call when no position value is
present; a native failure is logged as an error only. -/
def cursorPositionStep (env : NativeEnv) (w c : Window) :
    List NativeCall × List LogMsg :=
  if w.physicalCursorPosition ≠ c.physicalCursorPosition then
    match w.physicalCursorPosition with
    | some p =>
      ([.setCursorPosition p.1 p.2],
        if env.cursorPositionOk then [] else [.errCursorPosition])
    | none => ([], [])
  else ([], [])

/-- Lines 214-216: cursor icon diff. -/
def cursorIconCalls (w c : Window) : List NativeCall :=
  if w.cursor.icon ≠ c.cursor.icon then [.setCursorIcon w.cursor.icon] else []

/-- Lines 218-220: grab mode diff (`attempt_grab` lives outside `src/`). -/
def grabCalls (w c : Window) : List NativeCall :=
  if w.cursor.grabMode ≠ c.cursor.grabMode then [.attemptGrab w.cursor.grabMode] else []

/-- Lines 222-224: cursor visibility diff. -/
def cursorVisibleCalls (w c : Window) : List NativeCall :=
  if w.cursor.visible ≠ c.cursor.visible then [.setCursorVisible w.cursor.visible] else []

/-- Lines 226-234: cursor hit-test diff; on native failure the record field
is reverted to the cached value and a warning logged. -/
def hitTestStep (env : NativeEnv) (w c : Window) :
    Window × List NativeCall × List LogMsg :=
  if w.cursor.hitTest ≠ c.cursor.hitTest then
    if env.cursorHitTestOk then
      (w, [.setCursorHitTest w.cursor.hitTest], [])
    else
      ({ w with cursor := { w.cursor with hitTest := c.cursor.hitTest } },
        [.setCursorHitTest w.cursor.hitTest], [.warnCursorHitTest])
  else (w, [], [])

/-- Lines 236-240: decorations diff, double-checked against the native
window's reported state. -/
def decorationsCalls (env : NativeEnv) (w c : Window) : List NativeCall :=
  if w.decorations ≠ c.decorations ∧ w.decorations ≠ env.isDecorated then
    [.setDecorations w.decorations]
  else []

/-- Lines 242-244: resizable diff, double-checked against the native state. -/
def resizableCalls (env : NativeEnv) (w c : Window) : List NativeCall :=
  if w.resizable ≠ c.resizable ∧ w.resizable ≠ env.isResizable then
    [.setResizable w.resizable]
  else []

/-- Lines 246-248: enabled buttons diff. -/
def enabledButtonsCalls (w c : Window) : List NativeCall :=
  if w.enabledButtons ≠ c.enabledButtons then [.setEnabledButtons w.enabledButtons] else []

/-- Lines 250-265: resize constraints diff; min size always, max size only
when both axes are finite. -/
def constraintsCalls (env : NativeEnv) (w c : Window) : List NativeCall :=
  if w.resizeConstraints ≠ c.resizeConstraints then
    let constraints := env.checkConstraints w.resizeConstraints
    [.setMinInnerSize constraints.minW constraints.minH] ++
      (if constraints.maxWFinite ∧ constraints.maxHFinite then
        [.setMaxInnerSize constraints.maxW constraints.maxH]
      else [])
  else []

/-- Lines 267-284: position diff; resolved against monitor topology, applied
only when it differs from the reported outer position (or when that read
fails). -/
def positionCalls (env : NativeEnv) (w c : Window) : List NativeCall :=
  if w.position ≠ c.position then
    match env.windowPosition w.position w.resolution with
    | some position =>
      let shouldSet : Bool :=
        match env.outerPosition with
        | some currentPosition => currentPosition ≠ position
        | none => true
      if shouldSet then [.setOuterPosition position.1 position.2] else []
    | none => []
  else []

/-- Lines 286-288: the pending maximize one-shot, read without diffing. -/
def maximizeCalls (w : Window) : List NativeCall :=
  match w.internal.maximizeRequest with
  | some maximized => [.setMaximized maximized]
  | none => []

/-- Lines 290-292: the pending minimize one-shot, read without diffing. -/
def minimizeCalls (w : Window) : List NativeCall :=
  match w.internal.minimizeRequest with
  | some minimized => [.setMinimized minimized]
  | none => []

/-- The `take_*_request` calls clear both pending one-shot requests. -/
def takeRequests (w : Window) : Window :=
  { w with internal := { maximizeRequest := none, minimizeRequest := none } }

/-- Lines 294-296: focus diff; only a true request that differs from the
cached value issues a call. -/
def focusCalls (w c : Window) : List NativeCall :=
  if w.focused ≠ c.focused ∧ w.focused then [.focusWindow] else []

/-- Lines 298-300: window level diff. -/
def windowLevelCalls (w c : Window) : List NativeCall :=
  if w.windowLevel ≠ c.windowLevel then [.setWindowLevel w.windowLevel] else []

/-- Lines 302-306: transparency change is rejected: the record field is
reverted to the cached value and a warning logged; no native call exists. -/
def transparentStep (w c : Window) : Window × List LogMsg :=
  if w.transparent ≠ c.transparent then
    ({ w with transparent := c.transparent }, [.warnTransparency])
  else (w, [])

/-- Lines 316-318: IME enabled diff. -/
def imeEnabledCalls (w c : Window) : List NativeCall :=
  if w.imeEnabled ≠ c.imeEnabled then [.setImeAllowed w.imeEnabled] else []

/-- Lines 320-325: IME position diff. -/
def imePositionCalls (w c : Window) : List NativeCall :=
  if w.imePosition ≠ c.imePosition then [.setImeCursorArea w.imePosition] else []

/-- Lines 327-329: theme diff. -/
def themeCalls (w c : Window) : List NativeCall :=
  if w.windowTheme ≠ c.windowTheme then [.setTheme w.windowTheme] else []

/-- Lines 331-333: visibility diff. -/
def visibleCalls (w c : Window) : List NativeCall :=
  if w.visible ≠ c.visible then [.setVisible w.visible] else []

/-- One iteration of the `changed_windows` loop body (lines 157-335), for an
entity with a live native window: the steps run in source order, the window
record is threaded through the mutating steps (resize feedback, hit-test
revert, one-shot takes, transparency revert), and the cache is finally
overwritten with the resulting record (line 335). -/
def processWindow (env : NativeEnv) (entity : Nat) (w0 c : Window) : PassResult :=
  let rMode := modeStep env w0 c
  let rRes := resolutionStep env entity w0 c
  let w1 := rRes.1
  let rCursorPos := cursorPositionStep env w1 c
  let rHit := hitTestStep env w1 c
  let w2 := rHit.1
  let w3 := takeRequests w2
  let rTrans := transparentStep w3 c
  let w4 := rTrans.1
  { window := w4
    cache := w4
    calls :=
      titleCalls w0 c ++ rMode.1 ++ rRes.2.1 ++ rCursorPos.1 ++
        cursorIconCalls w1 c ++ grabCalls w1 c ++ cursorVisibleCalls w1 c ++
        rHit.2.1 ++ decorationsCalls env w2 c ++ resizableCalls env w2 c ++
        enabledButtonsCalls w2 c ++ constraintsCalls env w2 c ++
        positionCalls env w2 c ++ maximizeCalls w2 ++ minimizeCalls w2 ++
        focusCalls w3 c ++ windowLevelCalls w3 c ++ imeEnabledCalls w4 c ++
        imePositionCalls w4 c ++ themeCalls w4 c ++ visibleCalls w4 c
    resized := rRes.2.2
    logs := rMode.2 ++ rCursorPos.2 ++ rHit.2.2 ++ rTrans.2 }

/-- One iteration of the `changed_windows` loop including the guard on
lines 153-155: entities without a live native window are skipped untouched. -/
def changedWindowsEntity (env : NativeEnv) (entity : Nat) (w c : Window) : PassResult :=
  if env.hasWindow then processWindow env entity w c else ⟨w, c, [], [], []⟩

/-- `despawn_windows` (lines 116-131): for each removal notification, when
the entity no longer has a `Window` component, remove its native window from
the registry and send a `WindowClosed` event; otherwise do nothing.  Returns
the updated registry and the close events in emission order. -/
def despawnWindows : List Nat → List Nat → List Nat → List Nat × List Nat
  | [], _, registry => (registry, [])
  | e :: rest, live, registry =>
    if e ∈ live then despawnWindows rest live registry
    else
      let r := despawnWindows rest live (registry.erase e)
      (r.1, e :: r.2)

/-- True on the two one-shot commands (`set_maximized` / `set_minimized`). -/
def isOneShotCall : NativeCall → Bool
  | .setMaximized _ => true
  | .setMinimized _ => true
  | _ => false

/-- True on `set_fullscreen` calls. -/
def isSetFullscreenCall : NativeCall → Bool
  | .setFullscreen _ => true
  | _ => false

/-- True on `set_cursor_position` calls. -/
def isSetCursorPositionCall : NativeCall → Bool
  | .setCursorPosition _ _ => true
  | _ => false

/-- True on the persistent-field updates issued before the one-shot
commands in the loop body (title through position, lines 157-284). -/
def isEarlyPersistentCall : NativeCall → Bool
  | .setTitle _ => true
  | .setFullscreen _ => true
  | .requestInnerSize _ _ => true
  | .setCursorPosition _ _ => true
  | .setCursorIcon _ => true
  | .attemptGrab _ => true
  | .setCursorVisible _ => true
  | .setCursorHitTest _ => true
  | .setDecorations _ => true
  | .setResizable _ => true
  | .setEnabledButtons _ => true
  | .setMinInnerSize _ _ => true
  | .setMaxInnerSize _ _ => true
  | .setOuterPosition _ _ => true
  | _ => false

/-- The calls of the loop body up to and including the position update
(lines 157-284), exactly as assembled in `processWindow`. -/
def earlyCalls (env : NativeEnv) (entity : Nat) (w0 c : Window) : List NativeCall :=
  let rMode := modeStep env w0 c
  let rRes := resolutionStep env entity w0 c
  let w1 := rRes.1
  let rCursorPos := cursorPositionStep env w1 c
  let rHit := hitTestStep env w1 c
  let w2 := rHit.1
  titleCalls w0 c ++ rMode.1 ++ rRes.2.1 ++ rCursorPos.1 ++
    cursorIconCalls w1 c ++ grabCalls w1 c ++ cursorVisibleCalls w1 c ++
    rHit.2.1 ++ decorationsCalls env w2 c ++ resizableCalls env w2 c ++
    enabledButtonsCalls w2 c ++ constraintsCalls env w2 c ++ positionCalls env w2 c

/-- The one-shot maximize / minimize calls of the loop body (lines 286-292). -/
def oneShotCalls (env : NativeEnv) (entity : Nat) (w0 c : Window) : List NativeCall :=
  let w2 := (hitTestStep env (resolutionStep env entity w0 c).1 c).1
  maximizeCalls w2 ++ minimizeCalls w2

/-- The calls of the loop body after the one-shot commands (lines 294-333). -/
def lateCalls (env : NativeEnv) (entity : Nat) (w0 c : Window) : List NativeCall :=
  let w2 := (hitTestStep env (resolutionStep env entity w0 c).1 c).1
  let w3 := takeRequests w2
  let w4 := (transparentStep w3 c).1
  focusCalls w3 c ++ windowLevelCalls w3 c ++ imeEnabledCalls w4 c ++
    imePositionCalls w4 c ++ themeCalls w4 c ++ visibleCalls w4 c

/-- The statement of the claim that the one-shot commands come after all
persistent-field updates of the pass. -/
def OneShotsAfterAllPersistent (l : List NativeCall) : Prop :=
  ∀ i j : Fin l.length, isOneShotCall (l.get i) = true →
    isOneShotCall (l.get j) = false → j < i

instance (l : List NativeCall) : Decidable (OneShotsAfterAllPersistent l) := by
  unfold OneShotsAfterAllPersistent
  infer_instance

/-- True on `focus_window` calls. -/
def isFocusCall : NativeCall → Bool
  | .focusWindow => true
  | _ => false

/-- A concrete window record used to instantiate the theorems. -/
def baseWindow : Window where
  title := "bevy"
  mode := .windowed
  resolution := (1, 1)
  physicalCursorPosition := none
  cursor := ⟨0, 0, true, true⟩
  decorations := true
  resizable := true
  enabledButtons := 0
  resizeConstraints := 0
  position := 0
  internal := ⟨none, none⟩
  focused := false
  windowLevel := 0
  transparent := false
  imeEnabled := false
  imePosition := 0
  windowTheme := none
  visible := true

/-- A concrete native-side oracle used to instantiate the theorems. -/
def baseEnv : NativeEnv where
  hasWindow := true
  fullscreen := none
  currentMonitor := some 0
  bestVideomode := fun _ => 0
  fittingVideomode := fun _ _ _ => 0
  requestInnerSize := fun _ => none
  cursorPositionOk := true
  cursorHitTestOk := true
  isDecorated := true
  isResizable := true
  checkConstraints := fun _ => ⟨0, 0, 0, 0, false, false⟩
  windowPosition := fun _ _ => none
  outerPosition := none

/-- A record with a pending maximize request and a focus change: the pass
issues the one-shot `set_maximized` before the persistent focus update. -/
def maximizeFocusWindow : Window :=
  { baseWindow with focused := true, internal := ⟨some true, none⟩ }

/-- A record with a pending maximize request and a mode change. -/
def fullscreenMaximizeWindow : Window :=
  { baseWindow with mode := .borderlessFullscreen, internal := ⟨some true, none⟩ }

/-- Oracle that grants a resolution request of any size as (780, 600). -/
def envGrant780 : NativeEnv :=
  { baseEnv with requestInnerSize := fun _ => some (780, 600) }

/-- A record requesting resolution (800, 600). -/
def resizeWindow : Window :=
  { baseWindow with resolution := (800, 600) }

/-- Oracle reporting no current monitor. -/
def envNoMonitor : NativeEnv :=
  { baseEnv with currentMonitor := none }

/-- A record requesting exclusive fullscreen. -/
def exclusiveWindow : Window :=
  { baseWindow with mode := .fullscreen }

/-- A record whose transparency was toggled after creation. -/
def transparentWindow : Window :=
  { baseWindow with transparent := true }

/-- Oracle on which both cursor-related native calls fail. -/
def envCursorFail : NativeEnv :=
  { baseEnv with cursorPositionOk := false, cursorHitTestOk := false }

/-- A record with a cursor position value and a toggled cursor hit-test. -/
def cursorFailWindow : Window :=
  { baseWindow with
    physicalCursorPosition := some (3, 4), cursor := ⟨0, 0, true, false⟩ }

/-- A cache snapshot holding a cursor position value (so that clearing the
value is a change). -/
def cursorSomeCache : Window :=
  { baseWindow with physicalCursorPosition := some (1, 1) }

/-- Oracle already reporting borderless fullscreen. -/
def envBorderless : NativeEnv :=
  { baseEnv with fullscreen := some .borderless }

/-- A record requesting borderless fullscreen. -/
def borderlessWindow : Window :=
  { baseWindow with mode := .borderlessFullscreen }

/-! ### Helper lemmas -/

theorem transparentStep_internal (w c : Window) :
    (transparentStep w c).1.internal = w.internal := by
  unfold transparentStep
  split <;> rfl

theorem resolutionStep_fst (env : NativeEnv) (e : Nat) (w c : Window) :
    ∃ r, (resolutionStep env e w c).1 = { w with resolution := r } := by
  unfold resolutionStep
  split
  · cases h : env.requestInnerSize w.resolution with
    | some s => exact ⟨s, by simp [h, reactToResize]⟩
    | none => exact ⟨w.resolution, by simp [h]⟩
  · exact ⟨w.resolution, rfl⟩

theorem hitTestStep_fst (env : NativeEnv) (w c : Window) :
    ∃ b, (hitTestStep env w c).1 = { w with cursor := { w.cursor with hitTest := b } } := by
  unfold hitTestStep
  split
  · split
    · exact ⟨w.cursor.hitTest, rfl⟩
    · exact ⟨c.cursor.hitTest, rfl⟩
  · exact ⟨w.cursor.hitTest, rfl⟩

theorem transparentStep_fst (w c : Window) :
    ∃ t, (transparentStep w c).1 = { w with transparent := t } := by
  unfold transparentStep
  split
  · exact ⟨c.transparent, rfl⟩
  · exact ⟨w.transparent, rfl⟩

theorem mem_titleCalls {w c : Window} {x : NativeCall} (h : x ∈ titleCalls w c) :
    x = .setTitle w.title := by
  unfold titleCalls at h
  split at h <;> simp_all

theorem mem_modeStep {env : NativeEnv} {w c : Window} {x : NativeCall}
    (h : x ∈ (modeStep env w c).1) : ∃ m, x = .setFullscreen m := by
  unfold modeStep at h
  split at h
  · dsimp only at h
    split at h
    · split at h <;> simp_all
    · simp_all
  · simp_all

theorem mem_resolutionStep {env : NativeEnv} {e : Nat} {w c : Window} {x : NativeCall}
    (h : x ∈ (resolutionStep env e w c).2.1) :
    x = .requestInnerSize w.resolution.1 w.resolution.2 := by
  unfold resolutionStep at h
  split at h
  · split at h <;> simp_all
  · simp_all

theorem mem_cursorPositionStep {env : NativeEnv} {w c : Window} {x : NativeCall}
    (h : x ∈ (cursorPositionStep env w c).1) : ∃ a b, x = .setCursorPosition a b := by
  unfold cursorPositionStep at h
  split at h
  · split at h <;> simp_all
  · simp_all

theorem mem_cursorIconCalls {w c : Window} {x : NativeCall} (h : x ∈ cursorIconCalls w c) :
    x = .setCursorIcon w.cursor.icon := by
  unfold cursorIconCalls at h
  split at h <;> simp_all

theorem mem_grabCalls {w c : Window} {x : NativeCall} (h : x ∈ grabCalls w c) :
    x = .attemptGrab w.cursor.grabMode := by
  unfold grabCalls at h
  split at h <;> simp_all

theorem mem_cursorVisibleCalls {w c : Window} {x : NativeCall}
    (h : x ∈ cursorVisibleCalls w c) : x = .setCursorVisible w.cursor.visible := by
  unfold cursorVisibleCalls at h
  split at h <;> simp_all

theorem mem_hitTestStep {env : NativeEnv} {w c : Window} {x : NativeCall}
    (h : x ∈ (hitTestStep env w c).2.1) : x = .setCursorHitTest w.cursor.hitTest := by
  unfold hitTestStep at h
  split at h
  · split at h <;> simp_all
  · simp_all

theorem mem_decorationsCalls {env : NativeEnv} {w c : Window} {x : NativeCall}
    (h : x ∈ decorationsCalls env w c) : x = .setDecorations w.decorations := by
  unfold decorationsCalls at h
  split at h <;> simp_all

theorem mem_resizableCalls {env : NativeEnv} {w c : Window} {x : NativeCall}
    (h : x ∈ resizableCalls env w c) : x = .setResizable w.resizable := by
  unfold resizableCalls at h
  split at h <;> simp_all

theorem mem_enabledButtonsCalls {w c : Window} {x : NativeCall}
    (h : x ∈ enabledButtonsCalls w c) : x = .setEnabledButtons w.enabledButtons := by
  unfold enabledButtonsCalls at h
  split at h <;> simp_all

theorem mem_constraintsCalls {env : NativeEnv} {w c : Window} {x : NativeCall}
    (h : x ∈ constraintsCalls env w c) :
    (∃ a b, x = .setMinInnerSize a b) ∨ ∃ a b, x = .setMaxInnerSize a b := by
  unfold constraintsCalls at h
  split at h
  · dsimp only at h
    rw [List.mem_append] at h
    rcases h with h | h
    · rw [List.mem_singleton] at h
      exact Or.inl ⟨_, _, h⟩
    · split at h
      · rw [List.mem_singleton] at h
        exact Or.inr ⟨_, _, h⟩
      · simp_all
  · simp_all

theorem mem_positionCalls {env : NativeEnv} {w c : Window} {x : NativeCall}
    (h : x ∈ positionCalls env w c) : ∃ a b, x = .setOuterPosition a b := by
  unfold positionCalls at h
  split at h
  · split at h
    · dsimp only at h
      split at h <;> simp_all
    · simp_all
  · simp_all

theorem mem_maximizeCalls {w : Window} {x : NativeCall} (h : x ∈ maximizeCalls w) :
    ∃ b, x = .setMaximized b := by
  unfold maximizeCalls at h
  split at h <;> simp_all

theorem mem_minimizeCalls {w : Window} {x : NativeCall} (h : x ∈ minimizeCalls w) :
    ∃ b, x = .setMinimized b := by
  unfold minimizeCalls at h
  split at h <;> simp_all

theorem mem_focusCalls {w c : Window} {x : NativeCall} (h : x ∈ focusCalls w c) :
    x = .focusWindow := by
  unfold focusCalls at h
  split at h <;> simp_all

theorem mem_windowLevelCalls {w c : Window} {x : NativeCall}
    (h : x ∈ windowLevelCalls w c) : x = .setWindowLevel w.windowLevel := by
  unfold windowLevelCalls at h
  split at h <;> simp_all

theorem mem_imeEnabledCalls {w c : Window} {x : NativeCall}
    (h : x ∈ imeEnabledCalls w c) : x = .setImeAllowed w.imeEnabled := by
  unfold imeEnabledCalls at h
  split at h <;> simp_all

theorem mem_imePositionCalls {w c : Window} {x : NativeCall}
    (h : x ∈ imePositionCalls w c) : x = .setImeCursorArea w.imePosition := by
  unfold imePositionCalls at h
  split at h <;> simp_all

theorem mem_themeCalls {w c : Window} {x : NativeCall} (h : x ∈ themeCalls w c) :
    x = .setTheme w.windowTheme := by
  unfold themeCalls at h
  split at h <;> simp_all

theorem mem_visibleCalls {w c : Window} {x : NativeCall} (h : x ∈ visibleCalls w c) :
    x = .setVisible w.visible := by
  unfold visibleCalls at h
  split at h <;> simp_all

theorem processWindow_calls_decomp (env : NativeEnv) (e : Nat) (w c : Window) :
    (processWindow env e w c).calls =
      earlyCalls env e w c ++ (oneShotCalls env e w c ++ lateCalls env e w c) := by
  simp [processWindow, earlyCalls, oneShotCalls, lateCalls]

theorem mem_earlyCalls_isEarly {env : NativeEnv} {e : Nat} {w c : Window} {x : NativeCall}
    (h : x ∈ earlyCalls env e w c) : isEarlyPersistentCall x = true := by
  unfold earlyCalls at h
  simp only [List.mem_append, or_assoc] at h
  rcases h with h | h | h | h | h | h | h | h | h | h | h | h | h
  · rw [mem_titleCalls h]; rfl
  · obtain ⟨m, rfl⟩ := mem_modeStep h; rfl
  · rw [mem_resolutionStep h]; rfl
  · obtain ⟨a, b, rfl⟩ := mem_cursorPositionStep h; rfl
  · rw [mem_cursorIconCalls h]; rfl
  · rw [mem_grabCalls h]; rfl
  · rw [mem_cursorVisibleCalls h]; rfl
  · rw [mem_hitTestStep h]; rfl
  · rw [mem_decorationsCalls h]; rfl
  · rw [mem_resizableCalls h]; rfl
  · rw [mem_enabledButtonsCalls h]; rfl
  · rcases mem_constraintsCalls h with ⟨a, b, rfl⟩ | ⟨a, b, rfl⟩ <;> rfl
  · obtain ⟨a, b, rfl⟩ := mem_positionCalls h; rfl

theorem mem_earlyCalls_not_oneShot {env : NativeEnv} {e : Nat} {w c : Window}
    {x : NativeCall} (h : x ∈ earlyCalls env e w c) : isOneShotCall x = false := by
  unfold earlyCalls at h
  simp only [List.mem_append, or_assoc] at h
  rcases h with h | h | h | h | h | h | h | h | h | h | h | h | h
  · rw [mem_titleCalls h]; rfl
  · obtain ⟨m, rfl⟩ := mem_modeStep h; rfl
  · rw [mem_resolutionStep h]; rfl
  · obtain ⟨a, b, rfl⟩ := mem_cursorPositionStep h; rfl
  · rw [mem_cursorIconCalls h]; rfl
  · rw [mem_grabCalls h]; rfl
  · rw [mem_cursorVisibleCalls h]; rfl
  · rw [mem_hitTestStep h]; rfl
  · rw [mem_decorationsCalls h]; rfl
  · rw [mem_resizableCalls h]; rfl
  · rw [mem_enabledButtonsCalls h]; rfl
  · rcases mem_constraintsCalls h with ⟨a, b, rfl⟩ | ⟨a, b, rfl⟩ <;> rfl
  · obtain ⟨a, b, rfl⟩ := mem_positionCalls h; rfl

theorem mem_oneShotCalls_isOneShot {env : NativeEnv} {e : Nat} {w c : Window}
    {x : NativeCall} (h : x ∈ oneShotCalls env e w c) : isOneShotCall x = true := by
  unfold oneShotCalls at h
  simp only [List.mem_append] at h
  rcases h with h | h
  · obtain ⟨b, rfl⟩ := mem_maximizeCalls h; rfl
  · obtain ⟨b, rfl⟩ := mem_minimizeCalls h; rfl

theorem mem_lateCalls_not_oneShot {env : NativeEnv} {e : Nat} {w c : Window}
    {x : NativeCall} (h : x ∈ lateCalls env e w c) :
    isOneShotCall x = false ∧ isEarlyPersistentCall x = false := by
  unfold lateCalls at h
  simp only [List.mem_append, or_assoc] at h
  rcases h with h | h | h | h | h | h
  · rw [mem_focusCalls h]; exact ⟨rfl, rfl⟩
  · rw [mem_windowLevelCalls h]; exact ⟨rfl, rfl⟩
  · rw [mem_imeEnabledCalls h]; exact ⟨rfl, rfl⟩
  · rw [mem_imePositionCalls h]; exact ⟨rfl, rfl⟩
  · rw [mem_themeCalls h]; exact ⟨rfl, rfl⟩
  · rw [mem_visibleCalls h]; exact ⟨rfl, rfl⟩

theorem processWindow_cache (env : NativeEnv) (e : Nat) (w c : Window) :
    (processWindow env e w c).cache = (processWindow env e w c).window := rfl

theorem processWindow_window_internal (env : NativeEnv) (e : Nat) (w c : Window) :
    (processWindow env e w c).window.internal =
      ⟨none, none⟩ := by
  simp only [processWindow, transparentStep_internal, takeRequests]

theorem processWindow_self_calls (env : NativeEnv) (e : Nat) (w : Window)
    (h : w.internal = ⟨none, none⟩) :
    (processWindow env e w w).calls = [] := by
  simp [processWindow, titleCalls, modeStep, resolutionStep, cursorPositionStep,
    cursorIconCalls, grabCalls, cursorVisibleCalls, hitTestStep, decorationsCalls,
    resizableCalls, enabledButtonsCalls, constraintsCalls, positionCalls,
    maximizeCalls, minimizeCalls, takeRequests, focusCalls, windowLevelCalls,
    transparentStep, imeEnabledCalls, imePositionCalls, themeCalls, visibleCalls, h]

/-! ### Claims -/

/-- C1: for every window entity, running the reconciliation pass
(`changed_windows`) twice in succession with no record mutation between the
runs issues zero native window calls on the second run, because after the
first run the cached snapshot equals the window record. -/
theorem changed_windows_idempotent (env : NativeEnv) (e : Nat) (w c : Window) :
    (changedWindowsEntity env e
      (changedWindowsEntity env e w c).window
      (changedWindowsEntity env e w c).cache).calls = [] := by
  unfold changedWindowsEntity
  by_cases h : env.hasWindow
  · simp only [h, if_true, processWindow_cache]
    exact processWindow_self_calls env e _ (processWindow_window_internal env e w c)
  · simp [h]

/-- C2: at the end of the `changed_windows` loop body, the cached snapshot is
unconditionally overwritten with the current (possibly feedback-adjusted)
record state, so on exit the cache equals the record that was last pushed to
the native window. -/
theorem cache_equals_record_after_pass (env : NativeEnv) (e : Nat) (w c : Window) :
    (processWindow env e w c).cache = (processWindow env e w c).window := rfl

theorem index_lt_of_decomp {α : Type} {l A B : List α} (P Q : α → Bool)
    (hd : l = A ++ B)
    (hA : ∀ x ∈ A, Q x = false)
    (hB : ∀ x ∈ B, P x = false)
    (i j : Nat) (hi : i < l.length) (hj : j < l.length)
    (h1 : P (l.get ⟨i, hi⟩) = true)
    (h2 : Q (l.get ⟨j, hj⟩) = true) : i < j := by
  subst hd
  simp only [List.get_eq_getElem] at h1 h2
  have hiA : i < A.length := by
    by_contra hge
    push_neg at hge
    rw [List.getElem_append_right hge] at h1
    rw [hB _ (List.getElem_mem _)] at h1
    exact Bool.false_ne_true h1
  have hjA : ¬ j < A.length := by
    intro hlt
    rw [List.getElem_append_left hlt] at h2
    rw [hA _ (List.getElem_mem _)] at h2
    exact Bool.false_ne_true h2
  omega

theorem mem_oneShotCalls_not_early {env : NativeEnv} {e : Nat} {w c : Window}
    {x : NativeCall} (h : x ∈ oneShotCalls env e w c) : isEarlyPersistentCall x = false := by
  unfold oneShotCalls at h
  simp only [List.mem_append] at h
  rcases h with h | h
  · obtain ⟨b, rfl⟩ := mem_maximizeCalls h; rfl
  · obtain ⟨b, rfl⟩ := mem_minimizeCalls h; rfl

/-- C3 counterexample: an entity whose `Window` component was added and then
removed within one cycle appears in the removal stream (`closed.read()`)
while absent from the live query; `despawn_windows` then sends a
`WindowClosed` event for it, contrary to the claim that no close event is
emitted in the add-then-remove-same-cycle case. -/
theorem despawn_add_then_remove_emits_close :
    (despawnWindows [0] [] []).2 = [0] := by decide

/-- C3 (amended): an identifier removed and re-added in the same cycle (still
among the live records) is skipped by the teardown pass — no close event and
its native window stays in the registry; an identifier removed and not
re-added (including one whose component was added and removed in the same
cycle) does receive a close event. -/
theorem despawn_guard (removed live registry : List Nat) (e : Nat) :
    (e ∈ live → e ∉ (despawnWindows removed live registry).2 ∧
      (e ∈ registry → e ∈ (despawnWindows removed live registry).1)) ∧
    (e ∈ removed → e ∉ live → e ∈ (despawnWindows removed live registry).2) := by
  induction removed generalizing registry with
  | nil =>
    exact ⟨fun _ => ⟨by simp [despawnWindows], fun hr => hr⟩, fun h => absurd h (by simp)⟩
  | cons a rest ih =>
    unfold despawnWindows
    by_cases ha : a ∈ live
    · simp only [if_pos ha]
      refine ⟨(ih registry).1, fun hmem hnl => ?_⟩
      have he : e ∈ rest := by
        rcases List.mem_cons.mp hmem with rfl | h
        · exact absurd ha hnl
        · exact h
      exact (ih registry).2 he hnl
    · simp only [if_neg ha]
      constructor
      · intro hlive
        have hne : e ≠ a := fun he => ha (he ▸ hlive)
        refine ⟨fun hmem => ?_, fun hr => ?_⟩
        · rcases List.mem_cons.mp hmem with he | he
          · exact hne he
          · exact ((ih (registry.erase a)).1 hlive).1 he
        · exact ((ih (registry.erase a)).1 hlive).2 ((List.mem_erase_of_ne hne).mpr hr)
      · intro hmem hnl
        rcases List.mem_cons.mp hmem with rfl | he
        · exact List.mem_cons_self _ _
        · exact List.mem_cons_of_mem _ ((ih (registry.erase a)).2 he hnl)

/-- Witness for `despawn_guard`: identifier 1 is removed but still live, so
it gets no close event and stays in the registry; identifier 2 is removed
and not live, so it gets a close event. -/
theorem despawn_guard_witness :
    (1 ∉ (despawnWindows [1, 2] [1] [1]).2 ∧ 1 ∈ (despawnWindows [1, 2] [1] [1]).1) ∧
      2 ∈ (despawnWindows [1, 2] [1] [1]).2 := by
  constructor
  · have h := (despawn_guard [1, 2] [1] [1] 1).1 (by decide)
    exact ⟨h.1, h.2 (by decide)⟩
  · exact (despawn_guard [1, 2] [1] [1] 2).2 (by decide) (by decide)

/-- C4 counterexample: it is not the case that the one-shot maximize and
minimize commands come after all persistent-field updates of the pass: with
a pending maximize request and a focus change, `set_maximized` is issued
before the persistent `focus_window` update (lines 286-292 precede lines
294-334). -/
theorem one_shots_not_after_all_persistent :
    ¬ ∀ (env : NativeEnv) (e : Nat) (w c : Window),
        OneShotsAfterAllPersistent (processWindow env e w c).calls := by
  intro h
  exact absurd (h baseEnv 0 maximizeFocusWindow baseWindow) (by decide)

/-- C4 (amended): in every reconciliation pass the one-shot maximize and
minimize commands are applied after the persistent-field updates of lines
157-284 (title, mode, resolution, cursor fields, decorations, resizable,
enabled buttons, resize constraints, position) — in particular after any
mode or resolution change — though before the focus, window level, IME,
theme and visibility updates of lines 294-333. -/
theorem one_shots_after_early_persistent_updates (env : NativeEnv) (e : Nat)
    (w c : Window) (i j : Nat)
    (hi : i < (processWindow env e w c).calls.length)
    (hj : j < (processWindow env e w c).calls.length)
    (h1 : isEarlyPersistentCall ((processWindow env e w c).calls.get ⟨i, hi⟩) = true)
    (h2 : isOneShotCall ((processWindow env e w c).calls.get ⟨j, hj⟩) = true) :
    i < j := by
  refine index_lt_of_decomp isEarlyPersistentCall isOneShotCall
    (processWindow_calls_decomp env e w c) ?_ ?_ i j hi hj h1 h2
  · exact fun x hx => mem_earlyCalls_not_oneShot hx
  · intro x hx
    rcases List.mem_append.mp hx with hm | hm
    · exact mem_oneShotCalls_not_early hm
    · exact (mem_lateCalls_not_oneShot hm).2

theorem fullscreenMaximizeLen0 :
    0 < (processWindow baseEnv 0 fullscreenMaximizeWindow baseWindow).calls.length := by decide

theorem fullscreenMaximizeLen1 :
    1 < (processWindow baseEnv 0 fullscreenMaximizeWindow baseWindow).calls.length := by decide

/-- Witness for `one_shots_after_early_persistent_updates`: a pass with a
mode change and a pending maximize request issues `set_fullscreen` at index
0 and `set_maximized` at index 1. -/
theorem one_shots_after_early_witness :
    isEarlyPersistentCall (.setFullscreen (some .borderless)) = true ∧ (0 : Nat) < 1 := by
  refine ⟨by decide, ?_⟩
  exact one_shots_after_early_persistent_updates baseEnv 0 fullscreenMaximizeWindow baseWindow
    0 1 fullscreenMaximizeLen0 fullscreenMaximizeLen1 (by decide) (by decide)

theorem countP_eq_zero_of (p : NativeCall → Bool) (l : List NativeCall)
    (h : ∀ x ∈ l, p x = false) : l.countP p = 0 :=
  List.countP_eq_zero.mpr fun a ha => by simp [h a ha]

theorem countP_titleCalls {p : NativeCall → Bool} (w c : Window)
    (hp : ∀ s, p (.setTitle s) = false) : (titleCalls w c).countP p = 0 :=
  countP_eq_zero_of p _ fun x hx => by rw [mem_titleCalls hx]; exact hp _

theorem countP_modeStep {p : NativeCall → Bool} (env : NativeEnv) (w c : Window)
    (hp : ∀ m, p (.setFullscreen m) = false) : ((modeStep env w c).1).countP p = 0 :=
  countP_eq_zero_of p _ fun x hx => by obtain ⟨m, rfl⟩ := mem_modeStep hx; exact hp _

theorem countP_resolutionStep {p : NativeCall → Bool} (env : NativeEnv) (e : Nat)
    (w c : Window) (hp : ∀ a b, p (.requestInnerSize a b) = false) :
    ((resolutionStep env e w c).2.1).countP p = 0 :=
  countP_eq_zero_of p _ fun x hx => by rw [mem_resolutionStep hx]; exact hp _ _

theorem countP_cursorPositionStep {p : NativeCall → Bool} (env : NativeEnv)
    (w c : Window) (hp : ∀ a b, p (.setCursorPosition a b) = false) :
    ((cursorPositionStep env w c).1).countP p = 0 :=
  countP_eq_zero_of p _ fun x hx => by
    obtain ⟨a, b, rfl⟩ := mem_cursorPositionStep hx; exact hp _ _

theorem countP_cursorIconCalls {p : NativeCall → Bool} (w c : Window)
    (hp : ∀ i, p (.setCursorIcon i) = false) : (cursorIconCalls w c).countP p = 0 :=
  countP_eq_zero_of p _ fun x hx => by rw [mem_cursorIconCalls hx]; exact hp _

theorem countP_grabCalls {p : NativeCall → Bool} (w c : Window)
    (hp : ∀ g, p (.attemptGrab g) = false) : (grabCalls w c).countP p = 0 :=
  countP_eq_zero_of p _ fun x hx => by rw [mem_grabCalls hx]; exact hp _

theorem countP_cursorVisibleCalls {p : NativeCall → Bool} (w c : Window)
    (hp : ∀ b, p (.setCursorVisible b) = false) : (cursorVisibleCalls w c).countP p = 0 :=
  countP_eq_zero_of p _ fun x hx => by rw [mem_cursorVisibleCalls hx]; exact hp _

theorem countP_hitTestStep {p : NativeCall → Bool} (env : NativeEnv) (w c : Window)
    (hp : ∀ b, p (.setCursorHitTest b) = false) :
    ((hitTestStep env w c).2.1).countP p = 0 :=
  countP_eq_zero_of p _ fun x hx => by rw [mem_hitTestStep hx]; exact hp _

theorem countP_decorationsCalls {p : NativeCall → Bool} (env : NativeEnv) (w c : Window)
    (hp : ∀ b, p (.setDecorations b) = false) : (decorationsCalls env w c).countP p = 0 :=
  countP_eq_zero_of p _ fun x hx => by rw [mem_decorationsCalls hx]; exact hp _

theorem countP_resizableCalls {p : NativeCall → Bool} (env : NativeEnv) (w c : Window)
    (hp : ∀ b, p (.setResizable b) = false) : (resizableCalls env w c).countP p = 0 :=
  countP_eq_zero_of p _ fun x hx => by rw [mem_resizableCalls hx]; exact hp _

theorem countP_enabledButtonsCalls {p : NativeCall → Bool} (w c : Window)
    (hp : ∀ b, p (.setEnabledButtons b) = false) :
    (enabledButtonsCalls w c).countP p = 0 :=
  countP_eq_zero_of p _ fun x hx => by rw [mem_enabledButtonsCalls hx]; exact hp _

theorem countP_constraintsCalls {p : NativeCall → Bool} (env : NativeEnv) (w c : Window)
    (hp1 : ∀ a b, p (.setMinInnerSize a b) = false)
    (hp2 : ∀ a b, p (.setMaxInnerSize a b) = false) :
    (constraintsCalls env w c).countP p = 0 :=
  countP_eq_zero_of p _ fun x hx => by
    rcases mem_constraintsCalls hx with ⟨a, b, rfl⟩ | ⟨a, b, rfl⟩
    · exact hp1 _ _
    · exact hp2 _ _

theorem countP_positionCalls {p : NativeCall → Bool} (env : NativeEnv) (w c : Window)
    (hp : ∀ a b, p (.setOuterPosition a b) = false) : (positionCalls env w c).countP p = 0 :=
  countP_eq_zero_of p _ fun x hx => by
    obtain ⟨a, b, rfl⟩ := mem_positionCalls hx; exact hp _ _

theorem countP_maximizeCalls {p : NativeCall → Bool} (w : Window)
    (hp : ∀ b, p (.setMaximized b) = false) : (maximizeCalls w).countP p = 0 :=
  countP_eq_zero_of p _ fun x hx => by obtain ⟨b, rfl⟩ := mem_maximizeCalls hx; exact hp _

theorem countP_minimizeCalls {p : NativeCall → Bool} (w : Window)
    (hp : ∀ b, p (.setMinimized b) = false) : (minimizeCalls w).countP p = 0 :=
  countP_eq_zero_of p _ fun x hx => by obtain ⟨b, rfl⟩ := mem_minimizeCalls hx; exact hp _

theorem countP_focusCalls {p : NativeCall → Bool} (w c : Window)
    (hp : p .focusWindow = false) : (focusCalls w c).countP p = 0 :=
  countP_eq_zero_of p _ fun x hx => by rw [mem_focusCalls hx]; exact hp

theorem countP_windowLevelCalls {p : NativeCall → Bool} (w c : Window)
    (hp : ∀ v, p (.setWindowLevel v) = false) : (windowLevelCalls w c).countP p = 0 :=
  countP_eq_zero_of p _ fun x hx => by rw [mem_windowLevelCalls hx]; exact hp _

theorem countP_imeEnabledCalls {p : NativeCall → Bool} (w c : Window)
    (hp : ∀ b, p (.setImeAllowed b) = false) : (imeEnabledCalls w c).countP p = 0 :=
  countP_eq_zero_of p _ fun x hx => by rw [mem_imeEnabledCalls hx]; exact hp _

theorem countP_imePositionCalls {p : NativeCall → Bool} (w c : Window)
    (hp : ∀ v, p (.setImeCursorArea v) = false) : (imePositionCalls w c).countP p = 0 :=
  countP_eq_zero_of p _ fun x hx => by rw [mem_imePositionCalls hx]; exact hp _

theorem countP_themeCalls {p : NativeCall → Bool} (w c : Window)
    (hp : ∀ t, p (.setTheme t) = false) : (themeCalls w c).countP p = 0 :=
  countP_eq_zero_of p _ fun x hx => by rw [mem_themeCalls hx]; exact hp _

theorem countP_visibleCalls {p : NativeCall → Bool} (w c : Window)
    (hp : ∀ b, p (.setVisible b) = false) : (visibleCalls w c).countP p = 0 :=
  countP_eq_zero_of p _ fun x hx => by rw [mem_visibleCalls hx]; exact hp _

theorem window3_eq (env : NativeEnv) (e : Nat) (w c : Window) :
    ∃ r b, takeRequests (hitTestStep env (resolutionStep env e w c).1 c).1 =
      { w with
        resolution := r
        cursor := { w.cursor with hitTest := b }
        internal := ⟨none, none⟩ } := by
  obtain ⟨r, hr⟩ := resolutionStep_fst env e w c
  obtain ⟨b, hb⟩ := hitTestStep_fst env (resolutionStep env e w c).1 c
  refine ⟨r, b, ?_⟩
  unfold takeRequests
  rw [hb, hr]

theorem processWindow_window_eq (env : NativeEnv) (e : Nat) (w c : Window) :
    ∃ r b t, (processWindow env e w c).window =
      { w with
        resolution := r
        cursor := { w.cursor with hitTest := b }
        internal := ⟨none, none⟩
        transparent := t } := by
  obtain ⟨r, b, h3⟩ := window3_eq env e w c
  obtain ⟨t, ht⟩ :=
    transparentStep_fst (takeRequests (hitTestStep env (resolutionStep env e w c).1 c).1) c
  refine ⟨r, b, t, ?_⟩
  simp only [processWindow]
  rw [ht, h3]

theorem modeStep_no_monitor {env : NativeEnv} {w c : Window}
    (hmode : w.mode = .fullscreen ∨ w.mode = .sizedFullscreen)
    (hchanged : w.mode ≠ c.mode) (hmon : env.currentMonitor = none) :
    modeStep env w c = ([], [.warnNoMonitor]) := by
  unfold modeStep resolveNewMode
  rcases hmode with h | h <;> rw [if_pos hchanged, h, hmon]

theorem resolutionStep_granted {env : NativeEnv} {e : Nat} {w c : Window} {s : Nat × Nat}
    (hchanged : w.resolution ≠ c.resolution)
    (hreq : env.requestInnerSize w.resolution = some s) :
    resolutionStep env e w c =
      ({ w with resolution := s },
        [.requestInnerSize w.resolution.1 w.resolution.2], [⟨e, s⟩]) := by
  unfold resolutionStep reactToResize
  rw [if_pos hchanged, hreq]

theorem countP_fullscreen_eq_modeStep (env : NativeEnv) (e : Nat) (w c : Window) :
    (processWindow env e w c).calls.countP isSetFullscreenCall =
      ((modeStep env w c).1).countP isSetFullscreenCall := by
  simp only [processWindow, List.countP_append]
  rw [countP_titleCalls _ _ (fun _ => rfl),
    countP_resolutionStep _ _ _ _ (fun _ _ => rfl),
    countP_cursorPositionStep _ _ _ (fun _ _ => rfl),
    countP_cursorIconCalls _ _ (fun _ => rfl),
    countP_grabCalls _ _ (fun _ => rfl),
    countP_cursorVisibleCalls _ _ (fun _ => rfl),
    countP_hitTestStep _ _ _ (fun _ => rfl),
    countP_decorationsCalls _ _ _ (fun _ => rfl),
    countP_resizableCalls _ _ _ (fun _ => rfl),
    countP_enabledButtonsCalls _ _ (fun _ => rfl),
    countP_constraintsCalls _ _ _ (fun _ _ => rfl) (fun _ _ => rfl),
    countP_positionCalls _ _ _ (fun _ _ => rfl),
    countP_maximizeCalls _ (fun _ => rfl),
    countP_minimizeCalls _ (fun _ => rfl),
    countP_focusCalls _ _ rfl,
    countP_windowLevelCalls _ _ (fun _ => rfl),
    countP_imeEnabledCalls _ _ (fun _ => rfl),
    countP_imePositionCalls _ _ (fun _ => rfl),
    countP_themeCalls _ _ (fun _ => rfl),
    countP_visibleCalls _ _ (fun _ => rfl)]
  omega

/-- C5: a resolution change whose request is granted at a (possibly
different) actual size makes the record's resolution that actual size and
emits exactly one resize notification carrying it. -/
theorem resize_feedback_roundtrip (env : NativeEnv) (e : Nat) (w c : Window)
    (s : Nat × Nat)
    (hchanged : w.resolution ≠ c.resolution)
    (hreq : env.requestInnerSize w.resolution = some s)
    (hdiff : s ≠ w.resolution) :
    (processWindow env e w c).window.resolution = s ∧
      (processWindow env e w c).resized = [⟨e, s⟩] := by
  have hg := resolutionStep_granted (e := e) hchanged hreq
  constructor
  · obtain ⟨b, hb⟩ := hitTestStep_fst env (resolutionStep env e w c).1 c
    obtain ⟨t, ht⟩ :=
      transparentStep_fst (takeRequests (hitTestStep env (resolutionStep env e w c).1 c).1) c
    simp only [processWindow]
    rw [ht, hb, hg]
    rfl
  · simp only [processWindow]
    rw [hg]

/-- Witness for `resize_feedback_roundtrip`: requesting (800, 600) when the
native layer grants (780, 600). -/
theorem resize_feedback_witness :
    (processWindow envGrant780 0 resizeWindow baseWindow).window.resolution = (780, 600) ∧
      (processWindow envGrant780 0 resizeWindow baseWindow).resized = [⟨0, (780, 600)⟩] :=
  resize_feedback_roundtrip envGrant780 0 resizeWindow baseWindow (780, 600)
    (by decide) rfl (by decide)

/-- C6: a change to an exclusive fullscreen mode with no current monitor
issues no `set_fullscreen` call, logs a warning, and leaves the record's
mode as requested. -/
theorem exclusive_fullscreen_no_monitor (env : NativeEnv) (e : Nat) (w c : Window)
    (hmode : w.mode = .fullscreen ∨ w.mode = .sizedFullscreen)
    (hchanged : w.mode ≠ c.mode)
    (hmon : env.currentMonitor = none) :
    (processWindow env e w c).calls.countP isSetFullscreenCall = 0 ∧
      LogMsg.warnNoMonitor ∈ (processWindow env e w c).logs ∧
      (processWindow env e w c).window.mode = w.mode := by
  have hm := modeStep_no_monitor hmode hchanged hmon
  refine ⟨?_, ?_, ?_⟩
  · rw [countP_fullscreen_eq_modeStep, hm]
    rfl
  · simp only [processWindow, List.mem_append, or_assoc]
    refine Or.inl ?_
    rw [hm]
    simp
  · obtain ⟨r, b, t, hw⟩ := processWindow_window_eq env e w c
    rw [hw]

/-- Witness for `exclusive_fullscreen_no_monitor`. -/
theorem exclusive_fullscreen_no_monitor_witness :
    (processWindow envNoMonitor 0 exclusiveWindow baseWindow).calls.countP
        isSetFullscreenCall = 0 ∧
      LogMsg.warnNoMonitor ∈ (processWindow envNoMonitor 0 exclusiveWindow baseWindow).logs ∧
      (processWindow envNoMonitor 0 exclusiveWindow baseWindow).window.mode =
        WindowMode.fullscreen :=
  exclusive_fullscreen_no_monitor envNoMonitor 0 exclusiveWindow baseWindow
    (Or.inl rfl) (by decide) rfl

theorem countP_focus_eq_focusStep (env : NativeEnv) (e : Nat) (w c : Window) :
    (processWindow env e w c).calls.countP isFocusCall =
      (focusCalls (takeRequests (hitTestStep env (resolutionStep env e w c).1 c).1) c).countP
        isFocusCall := by
  simp only [processWindow, List.countP_append]
  rw [countP_titleCalls _ _ (fun _ => rfl),
    countP_modeStep _ _ _ (fun _ => rfl),
    countP_resolutionStep _ _ _ _ (fun _ _ => rfl),
    countP_cursorPositionStep _ _ _ (fun _ _ => rfl),
    countP_cursorIconCalls _ _ (fun _ => rfl),
    countP_grabCalls _ _ (fun _ => rfl),
    countP_cursorVisibleCalls _ _ (fun _ => rfl),
    countP_hitTestStep _ _ _ (fun _ => rfl),
    countP_decorationsCalls _ _ _ (fun _ => rfl),
    countP_resizableCalls _ _ _ (fun _ => rfl),
    countP_enabledButtonsCalls _ _ (fun _ => rfl),
    countP_constraintsCalls _ _ _ (fun _ _ => rfl) (fun _ _ => rfl),
    countP_positionCalls _ _ _ (fun _ _ => rfl),
    countP_maximizeCalls _ (fun _ => rfl),
    countP_minimizeCalls _ (fun _ => rfl),
    countP_windowLevelCalls _ _ (fun _ => rfl),
    countP_imeEnabledCalls _ _ (fun _ => rfl),
    countP_imePositionCalls _ _ (fun _ => rfl),
    countP_themeCalls _ _ (fun _ => rfl),
    countP_visibleCalls _ _ (fun _ => rfl)]
  omega

/-- C8: the pass issues a `focus_window` call exactly when the record's
focused field differs from the cached value and is true (so a true-to-false
change issues no focus call), and the record's focused field is left as
requested. -/
theorem focus_monotonic (env : NativeEnv) (e : Nat) (w c : Window) :
    (processWindow env e w c).calls.countP isFocusCall =
      (if w.focused ≠ c.focused ∧ w.focused then 1 else 0) ∧
      (processWindow env e w c).window.focused = w.focused := by
  constructor
  · obtain ⟨r, b, h3⟩ := window3_eq env e w c
    rw [countP_focus_eq_focusStep]
    unfold focusCalls
    rw [h3]
    dsimp only
    split <;> simp [isFocusCall]
  · obtain ⟨r, b, t, hw⟩ := processWindow_window_eq env e w c
    rw [hw]

theorem cursorPositionStep_failure {env : NativeEnv} {w c : Window} {p : Nat × Nat}
    (hchange : w.physicalCursorPosition ≠ c.physicalCursorPosition)
    (hsome : w.physicalCursorPosition = some p)
    (hfail : env.cursorPositionOk = false) :
    cursorPositionStep env w c =
      ([.setCursorPosition p.1 p.2], [.errCursorPosition]) := by
  unfold cursorPositionStep
  rw [if_pos hchange, hsome, hfail]
  rfl

theorem cursorPositionStep_none {env : NativeEnv} {w c : Window}
    (hnone : w.physicalCursorPosition = none) :
    cursorPositionStep env w c = ([], []) := by
  unfold cursorPositionStep
  rw [hnone]
  split <;> rfl

theorem hitTestStep_failure {env : NativeEnv} {w c : Window}
    (hdiff : w.cursor.hitTest ≠ c.cursor.hitTest)
    (hfail : env.cursorHitTestOk = false) :
    hitTestStep env w c =
      ({ w with cursor := { w.cursor with hitTest := c.cursor.hitTest } },
        [.setCursorHitTest w.cursor.hitTest], [.warnCursorHitTest]) := by
  unfold hitTestStep
  rw [if_pos hdiff, hfail]
  rfl

theorem countP_cursorPosition_eq_step (env : NativeEnv) (e : Nat) (w c : Window) :
    (processWindow env e w c).calls.countP isSetCursorPositionCall =
      ((cursorPositionStep env (resolutionStep env e w c).1 c).1).countP
        isSetCursorPositionCall := by
  simp only [processWindow, List.countP_append]
  rw [countP_titleCalls _ _ (fun _ => rfl),
    countP_modeStep _ _ _ (fun _ => rfl),
    countP_resolutionStep _ _ _ _ (fun _ _ => rfl),
    countP_cursorIconCalls _ _ (fun _ => rfl),
    countP_grabCalls _ _ (fun _ => rfl),
    countP_cursorVisibleCalls _ _ (fun _ => rfl),
    countP_hitTestStep _ _ _ (fun _ => rfl),
    countP_decorationsCalls _ _ _ (fun _ => rfl),
    countP_resizableCalls _ _ _ (fun _ => rfl),
    countP_enabledButtonsCalls _ _ (fun _ => rfl),
    countP_constraintsCalls _ _ _ (fun _ _ => rfl) (fun _ _ => rfl),
    countP_positionCalls _ _ _ (fun _ _ => rfl),
    countP_maximizeCalls _ (fun _ => rfl),
    countP_minimizeCalls _ (fun _ => rfl),
    countP_focusCalls _ _ rfl,
    countP_windowLevelCalls _ _ (fun _ => rfl),
    countP_imeEnabledCalls _ _ (fun _ => rfl),
    countP_imePositionCalls _ _ (fun _ => rfl),
    countP_themeCalls _ _ (fun _ => rfl),
    countP_visibleCalls _ _ (fun _ => rfl)]
  omega

/-- C9: a native failure while setting the cursor hit-test reverts the
record's hit-test field to the cached value and logs a warning; a native
failure while setting the cursor position is only logged and leaves the
record's cursor position unchanged; a cursor position change with no
position value present issues no `set_cursor_position` call at all. -/
theorem cursor_failure_handling (env : NativeEnv) (e : Nat) (w c : Window) :
    (w.cursor.hitTest ≠ c.cursor.hitTest → env.cursorHitTestOk = false →
      (processWindow env e w c).window.cursor.hitTest = c.cursor.hitTest ∧
        LogMsg.warnCursorHitTest ∈ (processWindow env e w c).logs) ∧
    (∀ p, w.physicalCursorPosition = some p →
      w.physicalCursorPosition ≠ c.physicalCursorPosition →
      env.cursorPositionOk = false →
      LogMsg.errCursorPosition ∈ (processWindow env e w c).logs ∧
        (processWindow env e w c).window.physicalCursorPosition =
          w.physicalCursorPosition) ∧
    (w.physicalCursorPosition = none →
      (processWindow env e w c).calls.countP isSetCursorPositionCall = 0) := by
  obtain ⟨r, hr⟩ := resolutionStep_fst env e w c
  refine ⟨?_, ?_, ?_⟩
  · intro hdiff hfail
    have hdiff1 : ((resolutionStep env e w c).1).cursor.hitTest ≠ c.cursor.hitTest := by
      rw [hr]; exact hdiff
    have hh := hitTestStep_failure hdiff1 hfail
    constructor
    · obtain ⟨t, ht⟩ := transparentStep_fst
        (takeRequests (hitTestStep env (resolutionStep env e w c).1 c).1) c
      simp only [processWindow]
      rw [ht, hh]
      rfl
    · simp only [processWindow, List.mem_append, or_assoc]
      refine Or.inr (Or.inr (Or.inl ?_))
      rw [hh]
      simp
  · intro p hsome hchange hfail
    have hsome1 : ((resolutionStep env e w c).1).physicalCursorPosition = some p := by
      rw [hr]; exact hsome
    have hchange1 :
        ((resolutionStep env e w c).1).physicalCursorPosition ≠
          c.physicalCursorPosition := by
      rw [hr]; exact hchange
    have hcp := cursorPositionStep_failure hchange1 hsome1 hfail
    constructor
    · simp only [processWindow, List.mem_append, or_assoc]
      refine Or.inr (Or.inl ?_)
      rw [hcp]
      simp
    · obtain ⟨r2, b, t, hw⟩ := processWindow_window_eq env e w c
      rw [hw]
  · intro hnone
    have hnone1 : ((resolutionStep env e w c).1).physicalCursorPosition = none := by
      rw [hr]; exact hnone
    rw [countP_cursorPosition_eq_step, cursorPositionStep_none hnone1]
    rfl

/-- Witness for `cursor_failure_handling`: with both native cursor calls
failing, a toggled hit-test is reverted with a warning, a cursor position
set failure is logged with the record untouched, and clearing the position
value issues no cursor position call. -/
theorem cursor_failure_witness :
    ((processWindow envCursorFail 0 cursorFailWindow baseWindow).window.cursor.hitTest =
        true ∧
      LogMsg.warnCursorHitTest ∈
        (processWindow envCursorFail 0 cursorFailWindow baseWindow).logs) ∧
    (LogMsg.errCursorPosition ∈
        (processWindow envCursorFail 0 cursorFailWindow baseWindow).logs ∧
      (processWindow envCursorFail 0 cursorFailWindow baseWindow).window.physicalCursorPosition =
        some (3, 4)) ∧
    (processWindow envCursorFail 0 baseWindow cursorSomeCache).calls.countP
        isSetCursorPositionCall = 0 := by
  refine ⟨?_, ?_, ?_⟩
  · exact (cursor_failure_handling envCursorFail 0 cursorFailWindow baseWindow).1
      (by decide) rfl
  · exact (cursor_failure_handling envCursorFail 0 cursorFailWindow baseWindow).2.1
      (3, 4) rfl (by decide) rfl
  · exact (cursor_failure_handling envCursorFail 0 baseWindow cursorSomeCache).2.2 rfl

theorem modeStep_resolved {env : NativeEnv} {w c : Window} {nm : Option Fullscreen}
    (hchanged : w.mode ≠ c.mode)
    (hres : (resolveNewMode env w).1 = some nm) :
    (modeStep env w c).1 =
      if env.fullscreen ≠ nm then [.setFullscreen nm] else [] := by
  unfold modeStep
  rw [if_pos hchanged]
  dsimp only
  rw [hres]

/-- C10: when the mode changed and a new fullscreen state was resolved, the
`set_fullscreen` call is issued only if the native window's reported
fullscreen state differs from the resolved state; when they agree no call
is made. -/
theorem set_fullscreen_only_when_differing (env : NativeEnv) (e : Nat) (w c : Window)
    (nm : Option Fullscreen)
    (hchanged : w.mode ≠ c.mode)
    (hres : (resolveNewMode env w).1 = some nm) :
    (env.fullscreen = nm →
      (processWindow env e w c).calls.countP isSetFullscreenCall = 0) ∧
    (env.fullscreen ≠ nm →
      NativeCall.setFullscreen nm ∈ (processWindow env e w c).calls) := by
  constructor
  · intro heq
    rw [countP_fullscreen_eq_modeStep, modeStep_resolved hchanged hres,
      if_neg (fun hne => hne heq)]
    rfl
  · intro hne
    simp only [processWindow, List.mem_append, or_assoc]
    refine Or.inr (Or.inl ?_)
    rw [modeStep_resolved hchanged hres, if_pos hne]
    simp

/-- Witness for `set_fullscreen_only_when_differing`: a borderless request
when the native window already reports borderless issues no call, and the
same request against a non-fullscreen native window issues the call. -/
theorem set_fullscreen_only_when_differing_witness :
    (processWindow envBorderless 0 borderlessWindow baseWindow).calls.countP
        isSetFullscreenCall = 0 ∧
      NativeCall.setFullscreen (some .borderless) ∈
        (processWindow baseEnv 0 borderlessWindow baseWindow).calls := by
  constructor
  · exact (set_fullscreen_only_when_differing envBorderless 0 borderlessWindow baseWindow
      (some .borderless) (by decide) rfl).1 rfl
  · exact (set_fullscreen_only_when_differing baseEnv 0 borderlessWindow baseWindow
      (some .borderless) (by decide) rfl).2 (by decide)

theorem titleCalls_congr_transparent (w c : Window) (t : Bool) :
    titleCalls { w with transparent := t } c = titleCalls w c := by
  unfold titleCalls
  dsimp only

theorem modeStep_congr_transparent (env : NativeEnv) (w c : Window) (t : Bool) :
    modeStep env { w with transparent := t } c = modeStep env w c := by
  unfold modeStep resolveNewMode
  dsimp only

theorem resolutionStep_congr_transparent (env : NativeEnv) (e : Nat) (w c : Window)
    (t : Bool) :
    resolutionStep env e { w with transparent := t } c =
      ({ (resolutionStep env e w c).1 with transparent := t },
        (resolutionStep env e w c).2) := by
  unfold resolutionStep reactToResize
  dsimp only
  split <;> (try split) <;> rfl

theorem cursorPositionStep_congr_transparent (env : NativeEnv) (w c : Window) (t : Bool) :
    cursorPositionStep env { w with transparent := t } c = cursorPositionStep env w c := by
  unfold cursorPositionStep
  dsimp only

theorem cursorIconCalls_congr_transparent (w c : Window) (t : Bool) :
    cursorIconCalls { w with transparent := t } c = cursorIconCalls w c := by
  unfold cursorIconCalls
  dsimp only

theorem grabCalls_congr_transparent (w c : Window) (t : Bool) :
    grabCalls { w with transparent := t } c = grabCalls w c := by
  unfold grabCalls
  dsimp only

theorem cursorVisibleCalls_congr_transparent (w c : Window) (t : Bool) :
    cursorVisibleCalls { w with transparent := t } c = cursorVisibleCalls w c := by
  unfold cursorVisibleCalls
  dsimp only

theorem hitTestStep_congr_transparent (env : NativeEnv) (w c : Window) (t : Bool) :
    hitTestStep env { w with transparent := t } c =
      ({ (hitTestStep env w c).1 with transparent := t },
        (hitTestStep env w c).2) := by
  unfold hitTestStep
  dsimp only
  split <;> (try split) <;> rfl

theorem decorationsCalls_congr_transparent (env : NativeEnv) (w c : Window) (t : Bool) :
    decorationsCalls env { w with transparent := t } c = decorationsCalls env w c := by
  unfold decorationsCalls
  dsimp only

theorem resizableCalls_congr_transparent (env : NativeEnv) (w c : Window) (t : Bool) :
    resizableCalls env { w with transparent := t } c = resizableCalls env w c := by
  unfold resizableCalls
  dsimp only

theorem enabledButtonsCalls_congr_transparent (w c : Window) (t : Bool) :
    enabledButtonsCalls { w with transparent := t } c = enabledButtonsCalls w c := by
  unfold enabledButtonsCalls
  dsimp only

theorem constraintsCalls_congr_transparent (env : NativeEnv) (w c : Window) (t : Bool) :
    constraintsCalls env { w with transparent := t } c = constraintsCalls env w c := by
  unfold constraintsCalls
  dsimp only

theorem positionCalls_congr_transparent (env : NativeEnv) (w c : Window) (t : Bool) :
    positionCalls env { w with transparent := t } c = positionCalls env w c := by
  unfold positionCalls
  dsimp only

theorem maximizeCalls_congr_transparent (w : Window) (t : Bool) :
    maximizeCalls { w with transparent := t } = maximizeCalls w := by
  unfold maximizeCalls
  dsimp only

theorem minimizeCalls_congr_transparent (w : Window) (t : Bool) :
    minimizeCalls { w with transparent := t } = minimizeCalls w := by
  unfold minimizeCalls
  dsimp only

theorem takeRequests_congr_transparent (w : Window) (t : Bool) :
    takeRequests { w with transparent := t } = { takeRequests w with transparent := t } := rfl

theorem focusCalls_congr_transparent (w c : Window) (t : Bool) :
    focusCalls { w with transparent := t } c = focusCalls w c := by
  unfold focusCalls
  dsimp only

theorem windowLevelCalls_congr_transparent (w c : Window) (t : Bool) :
    windowLevelCalls { w with transparent := t } c = windowLevelCalls w c := by
  unfold windowLevelCalls
  dsimp only

theorem imeEnabledCalls_congr_transparent (w c : Window) (t : Bool) :
    imeEnabledCalls { w with transparent := t } c = imeEnabledCalls w c := by
  unfold imeEnabledCalls
  dsimp only

theorem imePositionCalls_congr_transparent (w c : Window) (t : Bool) :
    imePositionCalls { w with transparent := t } c = imePositionCalls w c := by
  unfold imePositionCalls
  dsimp only

theorem themeCalls_congr_transparent (w c : Window) (t : Bool) :
    themeCalls { w with transparent := t } c = themeCalls w c := by
  unfold themeCalls
  dsimp only

theorem visibleCalls_congr_transparent (w c : Window) (t : Bool) :
    visibleCalls { w with transparent := t } c = visibleCalls w c := by
  unfold visibleCalls
  dsimp only

theorem transparentStep_eq {w c : Window} (heq : w.transparent = c.transparent) :
    transparentStep w c = (w, []) := by
  unfold transparentStep
  rw [if_neg (fun hne => hne heq)]

/-- C7: a transparency change after creation is rejected: after one pass the
record's transparency field is reverted to the cached value, a warning is
logged, and no native call is made for it — the pass issues exactly the
calls it would have issued had the transparency field never changed. -/
theorem transparency_reverted (env : NativeEnv) (e : Nat) (w c : Window)
    (h : w.transparent ≠ c.transparent) :
    (processWindow env e w c).window.transparent = c.transparent ∧
      LogMsg.warnTransparency ∈ (processWindow env e w c).logs ∧
      (processWindow env e w c).calls =
        (processWindow env e { w with transparent := c.transparent } c).calls := by
  obtain ⟨r, b, h3⟩ := window3_eq env e w c
  have hcond :
      (takeRequests (hitTestStep env (resolutionStep env e w c).1 c).1).transparent ≠
        c.transparent := by
    rw [h3]; exact h
  have hts :
      transparentStep (takeRequests (hitTestStep env (resolutionStep env e w c).1 c).1) c =
        ({ takeRequests (hitTestStep env (resolutionStep env e w c).1 c).1 with
            transparent := c.transparent }, [.warnTransparency]) := by
    unfold transparentStep
    rw [if_pos hcond]
  refine ⟨?_, ?_, ?_⟩
  · simp only [processWindow]
    rw [hts]
  · simp only [processWindow, List.mem_append, or_assoc]
    refine Or.inr (Or.inr (Or.inr ?_))
    rw [hts]
    simp
  · simp only [processWindow, resolutionStep_congr_transparent,
      hitTestStep_congr_transparent, takeRequests_congr_transparent,
      titleCalls_congr_transparent, modeStep_congr_transparent,
      cursorPositionStep_congr_transparent, cursorIconCalls_congr_transparent,
      grabCalls_congr_transparent, cursorVisibleCalls_congr_transparent,
      decorationsCalls_congr_transparent, resizableCalls_congr_transparent,
      enabledButtonsCalls_congr_transparent, constraintsCalls_congr_transparent,
      positionCalls_congr_transparent, maximizeCalls_congr_transparent,
      minimizeCalls_congr_transparent, focusCalls_congr_transparent,
      windowLevelCalls_congr_transparent, imeEnabledCalls_congr_transparent,
      imePositionCalls_congr_transparent, themeCalls_congr_transparent,
      visibleCalls_congr_transparent, hts, transparentStep_eq]

/-- Witness for `transparency_reverted`. -/
theorem transparency_reverted_witness :
    (processWindow baseEnv 0 transparentWindow baseWindow).window.transparent = false ∧
      LogMsg.warnTransparency ∈ (processWindow baseEnv 0 transparentWindow baseWindow).logs ∧
      (processWindow baseEnv 0 transparentWindow baseWindow).calls =
        (processWindow baseEnv 0 { transparentWindow with transparent := false }
          baseWindow).calls :=
  transparency_reverted baseEnv 0 transparentWindow baseWindow (by decide)

end BevyWinitHook
